import Mathlib

/-!
Shallow embedding of `misskey-timeline-watchdog` (`src/main.go`) and proofs
about its specification claims.

The program is a single-file Go watchdog.  Machine integers (`int`,
`time.Duration`) are 64-bit on the deployment targets, so duration
arithmetic is modelled on `Int` with an explicit two's-complement wrap
(`wrap64`).  Strings are modelled with Lean `String`/`List Char`
(all relevant operations are ASCII-safe byte-for-byte images of the Go
`strings` functions used).
-/

namespace Watchdog

/-! ### 64-bit two's complement arithmetic (Go `int` / `time.Duration`) -/

/-- Wrap an integer into the signed 64-bit range, as Go int64 arithmetic does. -/
def wrap64 (n : Int) : Int :=
  (n + 2 ^ 63) % 2 ^ 64 - 2 ^ 63

/-- `time.Second` in nanoseconds (Go `time.Duration` counts nanoseconds). -/
def goSecond : Int := 1000000000

/-- `time.Minute` in nanoseconds. -/
def goMinute : Int := 60 * goSecond

/-! ### Configuration (`Config` struct, main.go lines 17-28) -/

/-- `Config.Target` of main.go: `domain` and `url` fields. -/
structure TargetConfig where
  domain : String
  url : String
deriving DecidableEq

/-- The `Config` struct of main.go: target, timeout (seconds), cooldown
(seconds), command, and the telemetry DSN. -/
structure Config where
  target : TargetConfig
  timeout : Int
  cooldown : Int
  command : String
  sentryDSN : String
deriving DecidableEq

/-! ### Durations actually used (main.go lines 120-123 and 167) -/

/-- main.go lines 120-123:
`cooldownDuration := time.Duration(cfg.Cooldown) * time.Second;
if cfg.Cooldown <= 0 { cooldownDuration = 5 * time.Minute }`.
The multiplication is 64-bit and wraps; the `5 * time.Minute` constant is
exact.  Result in nanoseconds. -/
def effectiveCooldownNs (cooldown : Int) : Int :=
  if cooldown ≤ 0 then 5 * goMinute else wrap64 (cooldown * goSecond)

/-- main.go line 167: `timeoutDuration := time.Duration(cfg.Timeout) * time.Second`.
No default is applied to the timeout anywhere in the program.
Result in nanoseconds. -/
def effectiveTimeoutNs (timeout : Int) : Int :=
  wrap64 (timeout * goSecond)

/-! ### Target URL resolution (`getTargetURL`, main.go lines 58-67) -/

/-- Go `strings.HasPrefix` on the modelled strings. -/
def goHasPrefix (s p : String) : Bool :=
  p.toList.isPrefixOf s.toList

/-- Go `strings.TrimPrefix`: drop `p` from the front of `s` when present. -/
def goTrimPrefix (s p : String) : String :=
  if goHasPrefix s p then String.mk (s.toList.drop p.toList.length) else s

/-- Go `strings.HasSuffix` on the modelled strings. -/
def goHasSuffix (s suf : String) : Bool :=
  suf.toList.isSuffixOf s.toList

/-- Go `strings.TrimSuffix`: drop one copy of `suf` from the end of `s` when present. -/
def goTrimSuffix (s suf : String) : String :=
  if goHasSuffix s suf then String.mk (s.toList.take (s.toList.length - suf.toList.length)) else s

/-- `DefaultPath` constant of main.go line 31. -/
def DefaultPath : String := "/streaming"

/-- `getTargetURL` (main.go lines 58-67): the URL field wins verbatim when
non-empty; otherwise a non-empty domain is cleaned by trimming a leading
`https://` and a trailing `/` and wrapped as `wss://<domain>/streaming`;
otherwise an error. -/
def getTargetURL (cfg : Config) : Except String String :=
  if cfg.target.url ≠ "" then Except.ok cfg.target.url
  else if cfg.target.domain ≠ "" then
    Except.ok ("wss://" ++ goTrimSuffix (goTrimPrefix cfg.target.domain "https://") "/" ++ DefaultPath)
  else Except.error "target.domain or target.url must be specified in the configuration file"

/-! ### Session model (`startMonitoringSession`, main.go lines 152-179)

The session interacts with the network through four fallible operations:
`Dial`, `WriteMessage` (the subscribe send), `SetReadDeadline`, and
`ReadMessage`.  A `SessionEnv` records the results the environment gives
those calls: whether the dial succeeds, whether the subscribe write
succeeds, and the sequence of read-loop events until (possibly) a failure.
A trace with no failing read event models a session that is still in its
read loop. -/

/-- The failure classification of a session (`Outcome` of the spec):
each constructor corresponds to one `return fmt.Errorf(...)` in
`startMonitoringSession`. -/
inductive Outcome where
  | connectFailed
  | subscribeFailed
  | deadlineSetFailed
  | readFailedOrTimedOut
deriving DecidableEq

/-- One iteration result of the read loop: `SetReadDeadline` errors,
`ReadMessage` errors (read timeout or disconnection), or a message arrives
and the loop continues. -/
inductive ReadEvent where
  | deadlineSetError
  | readError
  | message
deriving DecidableEq

/-- Environment of one `startMonitoringSession` call: the results the
network gives to dial, subscribe write, and the successive read-loop steps. -/
structure SessionEnv where
  connectOk : Bool
  subscribeOk : Bool
  reads : List ReadEvent
deriving DecidableEq

/-- Whether `startMonitoringSession` has returned, and with which Go
`error` value (`none` models returning a nil error, i.e. success). -/
inductive SessionEnd where
  | running
  | returned (err : Option Outcome)
deriving DecidableEq

/-- The `for` read loop of main.go lines 169-178: each iteration re-arms the
deadline (error exits with the deadline failure), then reads (error exits
with the read failure); a received message just loops.  An exhausted event
trace means the loop is still running. -/
def runReadLoop : List ReadEvent → SessionEnd
  | [] => SessionEnd.running
  | ReadEvent.deadlineSetError :: _ => SessionEnd.returned (some Outcome.deadlineSetFailed)
  | ReadEvent.readError :: _ => SessionEnd.returned (some Outcome.readFailedOrTimedOut)
  | ReadEvent.message :: rest => runReadLoop rest

/-- `startMonitoringSession` (main.go lines 152-179): dial, then subscribe
write, then the read loop.  Every early `return` carries a non-nil error. -/
def startMonitoringSession (env : SessionEnv) : SessionEnd :=
  if env.connectOk = false then SessionEnd.returned (some Outcome.connectFailed)
  else if env.subscribeOk = false then SessionEnd.returned (some Outcome.subscribeFailed)
  else runReadLoop env.reads

/-! ### Supervisor model (`main`'s forever loop, main.go lines 127-149) -/

/-- Observable actions of one supervisor cycle, in program order:
the dial attempt (main.go line 155), the subscribe send (line 161), the
error-level report of the session error (lines 132-136), the recovery
command execution (line 140), and the cooldown sleep (line 146). -/
inductive Action where
  | connectAttempt
  | sendSubscribe
  | reportSessionError (err : Option Outcome)
  | runRecoveryCommand (cmd : String)
  | sleepCooldown (ns : Int)
deriving DecidableEq

/-- Actions a session itself performs: it always attempts the dial; the
subscribe send (`WriteMessage`, main.go line 161) happens only when the
dial succeeded. -/
def sessionActions (env : SessionEnv) : List Action :=
  if env.connectOk = false then [Action.connectAttempt]
  else [Action.connectAttempt, Action.sendSubscribe]

/-- The supervisor loop (main.go lines 127-149) over a list of per-attempt
environments: run a session; if it returns, report its error, run the
recovery command, sleep the cooldown, and start the next attempt.  A
session that never returns contributes its own actions and nothing more. -/
def supervisorRun (cooldownNs : Int) (cmd : String) : List SessionEnv → List Action
  | [] => []
  | env :: rest =>
    sessionActions env ++
      match startMonitoringSession env with
      | SessionEnd.running => []
      | SessionEnd.returned e =>
          Action.reportSessionError e :: Action.runRecoveryCommand cmd ::
            Action.sleepCooldown cooldownNs :: supervisorRun cooldownNs cmd rest

/-! ### Recovery executor (`executeCommandAndReport`, main.go lines 181-210) -/

/-- Go `unicode.IsSpace`: the Unicode White_Space code points. -/
def goIsSpace (c : Char) : Bool :=
  (0x09 ≤ c.toNat && c.toNat ≤ 0x0D) || c.toNat = 0x20 || c.toNat = 0x85 ||
    c.toNat = 0xA0 || c.toNat = 0x1680 || (0x2000 ≤ c.toNat && c.toNat ≤ 0x200A) ||
    c.toNat = 0x2028 || c.toNat = 0x2029 || c.toNat = 0x202F || c.toNat = 0x205F ||
    c.toNat = 0x3000

/-- Helper for `goFields`: split a character list around runs of white
space, accumulating the current (reversed) field. -/
def fieldsAux (cs : List Char) (acc : List Char) : List (List Char) :=
  match cs with
  | [] => if acc.isEmpty then [] else [acc.reverse]
  | c :: rest =>
    if goIsSpace c then
      if acc.isEmpty then fieldsAux rest [] else acc.reverse :: fieldsAux rest []
    else fieldsAux rest (c :: acc)

/-- Go `strings.Fields`: the white-space-separated fields of `s`;
a string of only white space has no fields. -/
def goFields (s : String) : List String :=
  (fieldsAux s.toList []).map String.mk

/-- What `executeCommandAndReport` does with the child process: either no
process is launched and the local "empty command" message is logged, or
`exec.Command parts[0] parts[1:]...` is launched.  Both branches return
normally (the Go function's return type is `()` — it never panics or
propagates an error upward). -/
inductive ExecResult where
  | emptyCommand (logMessage : String)
  | launched (prog : String) (args : List String)
deriving DecidableEq

/-- `executeCommandAndReport` (main.go lines 181-188): tokenize on white
space; when no tokens remain, log the empty-command error and return;
otherwise launch the first token with the rest as arguments. -/
def executeCommandAndReport (commandStr : String) : ExecResult :=
  match goFields commandStr with
  | [] => ExecResult.emptyCommand "Error: Recovery command string is empty"
  | p :: rest => ExecResult.launched p rest

/-! ### Startup (`main`'s pre-loop, main.go lines 87-125) -/

/-- Environment of the startup path: whether `os.Stat` finds the config
file, whether the template `os.WriteFile` succeeds (its result is
discarded by the code), and what `loadConfig` yields when attempted. -/
structure StartupEnv where
  configExists : Bool
  templateWriteOk : Bool
  loadResult : Option Config
deriving DecidableEq

/-- How startup ends: `log.Fatalf`/`logFatalf` exits (each with status 1),
or the process enters the supervisor loop with the resolved target URL and
effective cooldown. -/
inductive StartupResult where
  | exitConfigNotFound
  | exitLoadFailed
  | exitConfigError
  | enterLoop (targetURL : String) (cooldownNs : Int)
deriving DecidableEq

/-- `main` before the loop (main.go lines 87-125): a missing config file
leads to a template-write attempt whose error is discarded (`_ =`) and a
`log.Fatalf` exit, regardless of the write result; then config load, then
target resolution, then the loop is entered with the effective cooldown. -/
def mainStartup (env : StartupEnv) : StartupResult :=
  if env.configExists = false then StartupResult.exitConfigNotFound
  else
    match env.loadResult with
    | none => StartupResult.exitLoadFailed
    | some cfg =>
      match getTargetURL cfg with
      | Except.error _ => StartupResult.exitConfigError
      | Except.ok url => StartupResult.enterLoop url (effectiveCooldownNs cfg.cooldown)

/-- Process exit status of a startup result: `log.Fatalf` and `logFatalf`
both exit with status 1; entering the loop never exits. -/
def startupExitCode : StartupResult → Option Nat
  | StartupResult.exitConfigNotFound => some 1
  | StartupResult.exitLoadFailed => some 1
  | StartupResult.exitConfigError => some 1
  | StartupResult.enterLoop _ _ => none

/-! ### Subscription payload (main.go line 32) and a JSON reader

`SubscribePayload` is the byte-for-byte constant sent with `WriteMessage`
once per session (main.go line 161).  To check the round-trip claim we
parse it with a small JSON parser written here (fuel-indexed recursive
descent) and inspect the resulting structure. -/

/-- The `SubscribePayload` constant of main.go line 32, byte for byte. -/
def SubscribePayload : String :=
  "\x7b\"type\":\"connect\",\"body\":\x7b\"channel\":\"globalTimeline\",\"id\":\"1\",\"params\":\x7b\"withRenotes\":true,\"minimize\":true\x7d\x7d\x7d"

/-- JSON values. -/
inductive JValue where
  | jnull
  | jbool (b : Bool)
  | jnum (n : Int)
  | jstr (s : String)
  | jarr (elems : List JValue)
  | jobj (fields : List (String × JValue))

/-- The double-quote character. -/
def jsonQuote : Char := Char.ofNat 34

/-- The opening-brace character. -/
def jsonLBrace : Char := Char.ofNat 123

/-- The closing-brace character. -/
def jsonRBrace : Char := Char.ofNat 125

/-- The backslash character. -/
def jsonBackslash : Char := Char.ofNat 92

/-- Skip JSON white space. -/
def skipWs (cs : List Char) : List Char :=
  match cs with
  | [] => []
  | c :: rest =>
    if c = ' ' ∨ c = '\t' ∨ c = '\n' ∨ c = '\r' then skipWs rest else c :: rest

/-- Parse the body of a JSON string literal (after the opening quote) up to
its closing quote, handling the simple escapes.  Returns the decoded
characters and the remaining input. -/
def parseStrChars (cs : List Char) : Option (List Char × List Char) :=
  match cs with
  | [] => none
  | c :: rest =>
    if c = jsonQuote then some ([], rest)
    else if c = jsonBackslash then
      match rest with
      | [] => none
      | e :: rest2 =>
        let dec : Option Char :=
          if e = jsonQuote then some jsonQuote
          else if e = jsonBackslash then some jsonBackslash
          else if e = '/' then some '/'
          else if e = 'n' then some '\n'
          else if e = 't' then some '\t'
          else if e = 'r' then some '\r'
          else none
        match dec with
        | none => none
        | some d =>
          match parseStrChars rest2 with
          | some (body, rest3) => some (d :: body, rest3)
          | none => none
    else
      match parseStrChars rest with
      | some (body, rest2) => some (c :: body, rest2)
      | none => none

/-- Parse a nonempty run of decimal digits. -/
def parseNatDigits (cs : List Char) : Option (Nat × List Char) :=
  match cs with
  | [] => none
  | c :: _ =>
    if c.isDigit then
      let rec go (l : List Char) (acc : Nat) : Nat × List Char :=
        match l with
        | [] => (acc, [])
        | d :: rest => if d.isDigit then go rest (acc * 10 + (d.toNat - 48)) else (acc, d :: rest)
      some (go cs 0)
    else none

mutual

/-- Parse one JSON value. -/
def parseValue : Nat → List Char → Option (JValue × List Char)
  | 0, _ => none
  | Nat.succ f, cs =>
    match skipWs cs with
    | [] => none
    | c :: rest =>
      if c = jsonQuote then
        match parseStrChars rest with
        | some (body, rest2) => some (JValue.jstr (String.mk body), rest2)
        | none => none
      else if c = jsonLBrace then
        match skipWs rest with
        | c2 :: rest2 =>
          if c2 = jsonRBrace then some (JValue.jobj [], rest2)
          else
            match parseMembers f (c2 :: rest2) with
            | some (fields, rest3) => some (JValue.jobj fields, rest3)
            | none => none
        | [] => none
      else if c = '[' then
        match skipWs rest with
        | ']' :: rest2 => some (JValue.jarr [], rest2)
        | rest2 =>
          match parseElems f rest2 with
          | some (elems, rest3) => some (JValue.jarr elems, rest3)
          | none => none
      else if c = 't' then
        match rest with
        | 'r' :: 'u' :: 'e' :: rest2 => some (JValue.jbool true, rest2)
        | _ => none
      else if c = 'f' then
        match rest with
        | 'a' :: 'l' :: 's' :: 'e' :: rest2 => some (JValue.jbool false, rest2)
        | _ => none
      else if c = 'n' then
        match rest with
        | 'u' :: 'l' :: 'l' :: rest2 => some (JValue.jnull, rest2)
        | _ => none
      else if c = '-' then
        match parseNatDigits rest with
        | some (n, rest2) => some (JValue.jnum (-(n : Int)), rest2)
        | none => none
      else
        match parseNatDigits (c :: rest) with
        | some (n, rest2) => some (JValue.jnum (n : Int), rest2)
        | none => none

/-- Parse the members of a JSON object, up to and including its closing
brace. -/
def parseMembers : Nat → List Char → Option (List (String × JValue) × List Char)
  | 0, _ => none
  | Nat.succ f, cs =>
    match skipWs cs with
    | [] => none
    | c :: rest =>
      if c = jsonQuote then
        match parseStrChars rest with
        | some (key, rest2) =>
          match skipWs rest2 with
          | ':' :: rest3 =>
            match parseValue f rest3 with
            | some (v, rest4) =>
              match skipWs rest4 with
              | ',' :: rest5 =>
                (match parseMembers f rest5 with
                 | some (fields, rest6) => some ((String.mk key, v) :: fields, rest6)
                 | none => none)
              | c2 :: rest5 =>
                if c2 = jsonRBrace then some ([(String.mk key, v)], rest5) else none
              | [] => none
            | none => none
          | _ => none
        | none => none
      else none

/-- Parse the elements of a JSON array, up to and including its closing
bracket. -/
def parseElems : Nat → List Char → Option (List JValue × List Char)
  | 0, _ => none
  | Nat.succ f, cs =>
    match parseValue f cs with
    | some (v, rest) =>
      match skipWs rest with
      | ',' :: rest2 =>
        (match parseElems f rest2 with
         | some (elems, rest3) => some (v :: elems, rest3)
         | none => none)
      | ']' :: rest2 => some ([v], rest2)
      | _ => none
    | none => none

end

/-- Parse a whole JSON document: one value followed only by white space. -/
def parseJson (s : String) : Option JValue :=
  match parseValue (s.toList.length + 1) s.toList with
  | some (v, rest) => if (skipWs rest).isEmpty then some v else none
  | none => none

/-- Look up a key in a field list (first match). -/
def lookupField : List (String × JValue) → String → Option JValue
  | [], _ => none
  | (k, v) :: rest, key => if k = key then some v else lookupField rest key

/-- Look up a key in a JSON object value. -/
def jGet (j : JValue) (key : String) : Option JValue :=
  match j with
  | JValue.jobj fields => lookupField fields key
  | _ => none

/-! ### Helper lemmas -/

/-- Wrapping is the identity on values already in the signed 64-bit range. -/
theorem wrap64_eq_self (n : Int) (h1 : -(2 ^ 63) ≤ n) (h2 : n < 2 ^ 63) :
    wrap64 n = n := by
  unfold wrap64
  have h3 : (0 : Int) ≤ n + 2 ^ 63 := by linarith
  have h4 : n + 2 ^ 63 < 2 ^ 64 := by norm_num; linarith
  rw [Int.emod_eq_of_lt h3 h4]
  ring

/-- The read loop never returns a nil error: every `SessionEnd.returned`
it produces carries some `Outcome`. -/
theorem runReadLoop_no_nil :
    ∀ (l : List ReadEvent) (e : Option Outcome),
      runReadLoop l = SessionEnd.returned e → ∃ o, e = some o := by
  intro l
  induction l with
  | nil => intro e h; cases h
  | cons c rest ih =>
    intro e h
    cases c with
    | deadlineSetError => cases h; exact ⟨Outcome.deadlineSetFailed, rfl⟩
    | readError => cases h; exact ⟨Outcome.readFailedOrTimedOut, rfl⟩
    | message => exact ih e h

/-- Splitting a list of white-space characters yields no fields. -/
theorem fieldsAux_all_space :
    ∀ (cs : List Char), (∀ c ∈ cs, goIsSpace c = true) → fieldsAux cs [] = [] := by
  intro cs
  induction cs with
  | nil => intro _; rfl
  | cons c rest ih =>
    intro h
    have hc : goIsSpace c = true := h c (List.mem_cons_self c rest)
    have hrest : ∀ c ∈ rest, goIsSpace c = true := fun x hx => h x (List.mem_cons_of_mem c hx)
    unfold fieldsAux
    simp [hc, ih hrest]

/-! ### Claim theorems -/

/-- C1 counterexample: with a configured timeout of 0 (the zero value an
absent `timeout:` key yields), the effective idle timeout used at
main.go line 167 is 0 nanoseconds — it is not replaced by any positive
default, refuting the claim that the idle timeout actually used is always
strictly positive. -/
theorem claim1_counterexample :
    effectiveTimeoutNs 0 = 0 ∧ ¬ (0 < effectiveTimeoutNs 0) := by decide

/-- C1 (amended): the effective cooldown is strictly positive whenever the
configured cooldown is zero or negative (it is replaced by the fixed
5-minute default), but the idle timeout is never defaulted: for configured
timeouts t with −9223372036 ≤ t ≤ 0 the program uses exactly t seconds in
nanoseconds, which is not strictly positive. -/
theorem claim1_effective_durations (c t : Int) (hc : c ≤ 0)
    (htlow : -9223372036 ≤ t) (ht : t ≤ 0) :
    effectiveCooldownNs c = 5 * goMinute ∧ 0 < effectiveCooldownNs c ∧
      effectiveTimeoutNs t = t * goSecond ∧ effectiveTimeoutNs t ≤ 0 := by
  have hcool : effectiveCooldownNs c = 5 * goMinute := by
    simp [effectiveCooldownNs, hc]
  have hmul_low : -(2 ^ 63) ≤ t * goSecond := by
    have := mul_le_mul_of_nonneg_right htlow (by norm_num [goSecond] : (0 : Int) ≤ goSecond)
    norm_num [goSecond] at this ⊢
    linarith
  have hmul_high : t * goSecond ≤ 0 := by
    have := mul_le_mul_of_nonneg_right ht (by norm_num [goSecond] : (0 : Int) ≤ goSecond)
    simpa using this
  have htime : effectiveTimeoutNs t = t * goSecond := by
    unfold effectiveTimeoutNs
    exact wrap64_eq_self _ hmul_low (lt_of_le_of_lt hmul_high (by norm_num))
  refine ⟨hcool, ?_, htime, by rw [htime]; exact hmul_high⟩
  rw [hcool]; norm_num [goMinute, goSecond]

/-- C1 witness at c = 0, t = 0. -/
theorem claim1_witness :
    effectiveCooldownNs 0 = 5 * goMinute ∧ 0 < effectiveCooldownNs 0 ∧
      effectiveTimeoutNs 0 = 0 * goSecond ∧ effectiveTimeoutNs 0 ≤ 0 :=
  claim1_effective_durations 0 0 (by decide) (by decide) (by decide)

/-- C2: whenever `startMonitoringSession` returns, the Go error it returns
is non-nil and is one of the four failure outcomes — success is never a
terminal state of a session. -/
theorem claim2_session_always_fails (env : SessionEnv) (e : Option Outcome)
    (h : startMonitoringSession env = SessionEnd.returned e) :
    e ≠ none ∧
      (e = some Outcome.connectFailed ∨ e = some Outcome.subscribeFailed ∨
        e = some Outcome.deadlineSetFailed ∨ e = some Outcome.readFailedOrTimedOut) := by
  have hsome : ∃ o, e = some o := by
    unfold startMonitoringSession at h
    by_cases h1 : env.connectOk = false
    · simp [h1] at h
      exact ⟨Outcome.connectFailed, h.symm⟩
    · by_cases h2 : env.subscribeOk = false
      · simp [h1, h2] at h
        exact ⟨Outcome.subscribeFailed, h.symm⟩
      · simp [h1, h2] at h
        exact runReadLoop_no_nil env.reads e h
  obtain ⟨o, rfl⟩ := hsome
  refine ⟨by simp, ?_⟩
  cases o <;> simp

/-- C2 witness: a session whose dial fails returns the non-nil
`connectFailed` error. -/
theorem claim2_witness :
    (some Outcome.connectFailed ≠ (none : Option Outcome)) ∧
      (some Outcome.connectFailed = some Outcome.connectFailed ∨
        some Outcome.connectFailed = some Outcome.subscribeFailed ∨
        some Outcome.connectFailed = some Outcome.deadlineSetFailed ∨
        some Outcome.connectFailed = some Outcome.readFailedOrTimedOut) :=
  claim2_session_always_fails ⟨false, true, []⟩ (some Outcome.connectFailed) rfl

/-- C3: when the dial of a session fails, the session performs no subscribe
send and returns the `connectFailed` error; the supervisor's cycle for that
attempt is exactly dial attempt, error report, one recovery-command run,
and the cooldown sleep, after which the next attempt follows. -/
theorem claim3_connect_failure_cycle (env : SessionEnv) (rest : List SessionEnv)
    (cooldownNs : Int) (cmd : String) (h : env.connectOk = false) :
    startMonitoringSession env = SessionEnd.returned (some Outcome.connectFailed) ∧
      Action.sendSubscribe ∉ sessionActions env ∧
      supervisorRun cooldownNs cmd (env :: rest) =
        Action.connectAttempt :: Action.reportSessionError (some Outcome.connectFailed) ::
          Action.runRecoveryCommand cmd :: Action.sleepCooldown cooldownNs ::
            supervisorRun cooldownNs cmd rest ∧
      List.count (Action.runRecoveryCommand cmd)
          [Action.connectAttempt, Action.reportSessionError (some Outcome.connectFailed),
            Action.runRecoveryCommand cmd, Action.sleepCooldown cooldownNs] = 1 := by
  have hsession : startMonitoringSession env = SessionEnd.returned (some Outcome.connectFailed) := by
    simp [startMonitoringSession, h]
  refine ⟨hsession, ?_, ?_, ?_⟩
  · simp [sessionActions, h]
  · simp [supervisorRun, sessionActions, h, hsession]
  · simp [List.count_cons]

/-- C3 witness at a concrete failing-dial environment. -/
theorem claim3_witness :
    startMonitoringSession ⟨false, true, []⟩ = SessionEnd.returned (some Outcome.connectFailed) ∧
      Action.sendSubscribe ∉ sessionActions ⟨false, true, []⟩ ∧
      supervisorRun 300000000000 "./script.sh" [⟨false, true, []⟩] =
        Action.connectAttempt :: Action.reportSessionError (some Outcome.connectFailed) ::
          Action.runRecoveryCommand "./script.sh" :: Action.sleepCooldown 300000000000 ::
            supervisorRun 300000000000 "./script.sh" [] ∧
      List.count (Action.runRecoveryCommand "./script.sh")
          [Action.connectAttempt, Action.reportSessionError (some Outcome.connectFailed),
            Action.runRecoveryCommand "./script.sh", Action.sleepCooldown 300000000000] = 1 :=
  claim3_connect_failure_cycle ⟨false, true, []⟩ [] 300000000000 "./script.sh" rfl

/-- C4 counterexample: the configured cooldown 10000000000 is positive, yet
the effective cooldown is not 10000000000 seconds — the 64-bit nanosecond
product wraps to a negative duration. -/
theorem claim4_counterexample :
    (0 : Int) < 10000000000 ∧
      effectiveCooldownNs 10000000000 ≠ 10000000000 * goSecond ∧
      effectiveCooldownNs 10000000000 < 0 := by decide

/-- C4 (amended): for every configured cooldown C ≤ 0 the effective
cooldown is exactly 5 minutes (a fixed positive default); for 0 < C ≤
9223372036 (the values whose nanosecond count fits in int64) it is exactly
C seconds; larger C overflows the 64-bit duration. -/
theorem claim4_effective_cooldown (c : Int) :
    (c ≤ 0 → effectiveCooldownNs c = 5 * goMinute ∧ 0 < effectiveCooldownNs c) ∧
      (0 < c → c ≤ 9223372036 → effectiveCooldownNs c = c * goSecond) := by
  constructor
  · intro h
    have hc : effectiveCooldownNs c = 5 * goMinute := by simp [effectiveCooldownNs, h]
    exact ⟨hc, by rw [hc]; norm_num [goMinute, goSecond]⟩
  · intro h1 h2
    have hnot : ¬ c ≤ 0 := not_le.mpr h1
    have hlow : -(2 ^ 63) ≤ c * goSecond := by
      have : (0 : Int) ≤ c * goSecond :=
        mul_nonneg (le_of_lt h1) (by norm_num [goSecond])
      linarith
    have hhigh : c * goSecond < 2 ^ 63 := by
      have := mul_le_mul_of_nonneg_right h2 (by norm_num [goSecond] : (0 : Int) ≤ goSecond)
      norm_num [goSecond] at this ⊢
      linarith
    simp [effectiveCooldownNs, hnot]
    exact wrap64_eq_self _ hlow hhigh

/-- C4 witness at C = −1 (defaulted) and C = 7 (used as seconds). -/
theorem claim4_witness :
    (effectiveCooldownNs (-1) = 5 * goMinute ∧ 0 < effectiveCooldownNs (-1)) ∧
      effectiveCooldownNs 7 = 7 * goSecond :=
  ⟨(claim4_effective_cooldown (-1)).1 (by decide),
    (claim4_effective_cooldown 7).2 (by decide) (by decide)⟩

/-- C5: when the full URL is configured non-empty, resolution returns it
unchanged, and the domain value has no effect on the result. -/
theorem claim5_url_precedence (cfg : Config) (d : String) (h : cfg.target.url ≠ "") :
    getTargetURL cfg = Except.ok cfg.target.url ∧
      getTargetURL { cfg with target := { cfg.target with domain := d } } =
        Except.ok cfg.target.url := by
  constructor <;> simp [getTargetURL, h]

/-- C5 witness: a config with both URL and domain set resolves to the URL,
for any replacement domain. -/
theorem claim5_witness :
    getTargetURL ⟨⟨"misskey.io", "wss://example.org/streaming"⟩, 10, 300, "./script.sh", ""⟩ =
        Except.ok "wss://example.org/streaming" ∧
      getTargetURL { (⟨⟨"misskey.io", "wss://example.org/streaming"⟩, 10, 300, "./script.sh", ""⟩ : Config) with
          target := { (⟨"misskey.io", "wss://example.org/streaming"⟩ : TargetConfig) with domain := "other.example" } } =
        Except.ok "wss://example.org/streaming" :=
  claim5_url_precedence ⟨⟨"misskey.io", "wss://example.org/streaming"⟩, 10, 300, "./script.sh", ""⟩
    "other.example" (by decide)

/-- C6 counterexample: with no URL and domain `http://example.com`, the
code strips only the literal `https://` prefix, so the scheme survives and
the result is `wss://http://example.com/streaming` — not
`wss://example.com/streaming` as "any leading scheme prefix is stripped"
would require. -/
theorem claim6_counterexample :
    getTargetURL ⟨⟨"http://example.com", ""⟩, 10, 300, "./script.sh", ""⟩ =
        Except.ok "wss://http://example.com/streaming" ∧
      getTargetURL ⟨⟨"http://example.com", ""⟩, 10, 300, "./script.sh", ""⟩ ≠
        Except.ok "wss://example.com/streaming" := by
  constructor
  · rfl
  · intro h
    have h2 := Except.ok.inj
      ((show getTargetURL ⟨⟨"http://example.com", ""⟩, 10, 300, "./script.sh", ""⟩ =
          Except.ok "wss://http://example.com/streaming" from rfl).symm.trans h)
    exact absurd h2 (by decide)

/-- C6 (amended): with no URL and a non-empty domain, resolution returns
`wss://<domain'>/streaming` where `<domain'>` is the domain with a leading
`https://` prefix (only that scheme) and then one trailing `/` stripped. -/
theorem claim6_domain_resolution (cfg : Config) (h1 : cfg.target.url = "")
    (h2 : cfg.target.domain ≠ "") :
    getTargetURL cfg =
      Except.ok ("wss://" ++ goTrimSuffix (goTrimPrefix cfg.target.domain "https://") "/" ++
        "/streaming") := by
  simp [getTargetURL, h1, h2, DefaultPath]

/-- C6 witness at domain `https://misskey.io/`. -/
theorem claim6_witness :
    getTargetURL ⟨⟨"https://misskey.io/", ""⟩, 10, 300, "./script.sh", ""⟩ =
      Except.ok ("wss://" ++ goTrimSuffix (goTrimPrefix "https://misskey.io/" "https://") "/" ++
        "/streaming") :=
  claim6_domain_resolution ⟨⟨"https://misskey.io/", ""⟩, 10, 300, "./script.sh", ""⟩
    (by decide) (by decide)

/-- C7: both the bare domain `misskey.io` and `https://misskey.io/` resolve
to `wss://misskey.io/streaming`. -/
theorem claim7_resolution_idempotent :
    getTargetURL ⟨⟨"misskey.io", ""⟩, 10, 300, "./script.sh", ""⟩ =
        Except.ok "wss://misskey.io/streaming" ∧
      getTargetURL ⟨⟨"https://misskey.io/", ""⟩, 10, 300, "./script.sh", ""⟩ =
        Except.ok "wss://misskey.io/streaming" :=
  ⟨rfl, rfl⟩

/-- C8: for a command string consisting only of white space (including the
empty string), the recovery executor launches no subprocess: it logs the
local empty-command error and returns normally. -/
theorem claim8_empty_command (s : String) (h : ∀ c ∈ s.toList, goIsSpace c = true) :
    executeCommandAndReport s =
        ExecResult.emptyCommand "Error: Recovery command string is empty" ∧
      ∀ p args, executeCommandAndReport s ≠ ExecResult.launched p args := by
  have hfields : goFields s = [] := by
    unfold goFields
    rw [fieldsAux_all_space s.toList h]
    rfl
  have hrun : executeCommandAndReport s =
      ExecResult.emptyCommand "Error: Recovery command string is empty" := by
    unfold executeCommandAndReport
    rw [hfields]
  refine ⟨hrun, ?_⟩
  intro p args hlaunch
  rw [hrun] at hlaunch
  cases hlaunch

/-- C8 witness at the white-space-only command string consisting of spaces
and a tab. -/
theorem claim8_witness :
    executeCommandAndReport "  \t " =
        ExecResult.emptyCommand "Error: Recovery command string is empty" ∧
      ∀ p args, executeCommandAndReport "  \t " ≠ ExecResult.launched p args :=
  claim8_empty_command "  \t " (by decide)

/-- C9: parsing the fixed subscription payload back as JSON yields a
message whose body has channel `globalTimeline`, id `"1"`, and whose
params set both `withRenotes` and `minimize` to true. -/
theorem claim9_payload_roundtrip :
    ((parseJson SubscribePayload).bind (fun j => jGet j "body")).bind
        (fun b => jGet b "channel") = some (JValue.jstr "globalTimeline") ∧
      ((parseJson SubscribePayload).bind (fun j => jGet j "body")).bind
        (fun b => jGet b "id") = some (JValue.jstr "1") ∧
      (((parseJson SubscribePayload).bind (fun j => jGet j "body")).bind
        (fun b => jGet b "params")).bind (fun p => jGet p "withRenotes") =
          some (JValue.jbool true) ∧
      (((parseJson SubscribePayload).bind (fun j => jGet j "body")).bind
        (fun b => jGet b "params")).bind (fun p => jGet p "minimize") =
          some (JValue.jbool true) :=
  ⟨rfl, rfl, rfl, rfl⟩

/-- C10: when the configuration file is absent, startup ends in the
`exitConfigNotFound` fatal exit with status 1, for every template-write
result and every hypothetical load result — the write error is discarded
and the monitoring loop is never entered. -/
theorem claim10_missing_config (w : Bool) (load : Option Config) :
    mainStartup ⟨false, w, load⟩ = StartupResult.exitConfigNotFound ∧
      startupExitCode (mainStartup ⟨false, w, load⟩) = some 1 ∧
      mainStartup ⟨false, true, load⟩ = mainStartup ⟨false, false, load⟩ :=
  ⟨rfl, rfl, rfl⟩

end Watchdog

